import Mathlib

/-!
Postify: verification of the distribution-job orchestrator and its collaborators

Shallow embedding of the Postify repository (src/app.py, src/routes/posts.py,
src/routes/subscribers.py, src/models/schemas.py). The external collaborators
(compositing, the Gemini SDK calls, the WhatsApp webhook, the random number
generator) are modelled as explicit oracle parameters; everything the repository
code itself does (control flow, counters, result records, status transitions,
string messages) is translated directly from the source.

Observation points of a job record are the suspension points of the cooperative
event loop: the job dictionary is mutated only between awaits, so a status
poller can observe the record exactly at initialization, after each completed
recipient iteration, and after the final status write. The `trace` field of a
run collects the record at exactly those points.
-/

/-- Job status values stored in the in-memory job dictionaries
(src/routes/posts.py line 111, src/routes/subscribers.py line 148):
the strings "running", "completed", "failed". -/
inductive JobStatus
  | running
  | completed
  | failed
deriving DecidableEq, Repr

/-- A distribution-job record, generic over the shape of the per-recipient
result records (the users route and the subscribers route append differently
shaped dictionaries). Fields mirror the job dictionaries created in
src/routes/posts.py lines 110-119 and src/routes/subscribers.py lines 147-156:
status, total recipient count, the three counters, the ordered result list,
the optional error message, and whether completed_at has been written.
Timestamps carry no information the claims need, so completedAt is a flag. -/
structure Job (ρ : Type) where
  status : JobStatus
  total : Nat
  processed : Nat
  successful : Nat
  failed : Nat
  results : List ρ
  error : Option String
  completedAt : Bool
deriving DecidableEq, Repr

/-- The job record as the route handler creates it before scheduling the
background task: status "running", counters zero, empty results
(src/routes/posts.py lines 110-119, src/routes/subscribers.py lines 147-156). -/
def initJob (ρ : Type) (total : Nat) : Job ρ :=
  { status := JobStatus.running, total := total, processed := 0, successful := 0,
    failed := 0, results := [], error := none, completedAt := false }

/-- Result of one full orchestrator run: the final job record, the list of
inter-send delays that were actually awaited (as pairs of recipient index and
drawn duration in seconds, in order), and the trace of the job record at every
observation point. -/
structure RunResult (ρ : Type) where
  job : Job ρ
  awaited : List (Nat × Nat)
  trace : List (Job ρ)
deriving Repr

/-- The recipient for-loop shared by both orchestrators
(src/routes/posts.py line 146, src/routes/subscribers.py line 227):
fold the per-iteration step over the recipient list, threading the job record,
collecting awaited delays, and recording the job record after each iteration. -/
def runLoop {α ρ : Type} (step : Nat → α → Job ρ → Job ρ × List (Nat × Nat)) :
    Nat → List α → Job ρ → Job ρ × List (Nat × Nat) × List (Job ρ)
  | _, [], job => (job, [], [])
  | idx, u :: rest, job =>
    let s := step idx u job
    let r := runLoop step (idx + 1) rest s.1
    (r.1, s.2 ++ r.2.1, s.1 :: r.2.2)

/-- Python `random.randint(a, b)` draws an integer uniformly from the inclusive range
[a, b]; modelled as a function of an arbitrary seed so that the bound is a
theorem rather than an assumption. -/
def randint (a b seed : Nat) : Nat := a + seed % (b + 1 - a)

/-! ## Users route: `_process_distribution` (src/routes/posts.py lines 142-190) -/

/-- A user record from the users collection, as consumed by the loop:
its id (user["_id"]) and phone (user.get("phone")). The mail, website and logo
fields only feed the compositing collaborator, absorbed into the oracle. -/
structure User where
  id : String
  phone : String
deriving DecidableEq, Repr

/-- A per-recipient result dictionary appended by `_process_distribution`
(src/routes/posts.py lines 167-172 and 175-180): user_id, phone, success flag,
and either the api_response or the error text. -/
structure RecipientResult where
  userId : String
  phone : String
  success : Bool
  info : String
deriving DecidableEq, Repr

/-- Oracles for one `_process_distribution` run. `composite i` is the outcome
of the fallible work before the delay at recipient index i (overlay_images and
image_to_base64, src/routes/posts.py lines 149-159): ok, or the text of the
raised exception. `randSeed i` feeds the randint draw at index i. `send i` is
the outcome of send_to_whatsapp at index i: the api response, or the text of
the raised exception. -/
structure DistEnv where
  composite : Nat → Except String Unit
  randSeed : Nat → Nat
  send : Nat → Except String String
deriving Inhabited

/-- One iteration of the recipient loop of `_process_distribution`
(src/routes/posts.py lines 146-186). The try block composites, then (for
index > 0) awaits a uniform delay of randint(30, 300) seconds, then sends.
Any exception lands in the except branch which appends a failure record and
increments failed; a success appends a success record and increments
successful; processed is incremented after the try/except in either case. -/
def process_distribution_step (env : DistEnv) (index : Nat) (user : User)
    (job : Job RecipientResult) : Job RecipientResult × List (Nat × Nat) :=
  match env.composite index with
  | Except.error e =>
    ({ job with
        results := job.results ++ [⟨user.id, user.phone, false, e⟩],
        failed := job.failed + 1,
        processed := job.processed + 1 }, [])
  | Except.ok _ =>
    let delays := if index > 0 then [(index, randint 30 300 (env.randSeed index))] else []
    match env.send index with
    | Except.ok api =>
      ({ job with
          results := job.results ++ [⟨user.id, user.phone, true, api⟩],
          successful := job.successful + 1,
          processed := job.processed + 1 }, delays)
    | Except.error e =>
      ({ job with
          results := job.results ++ [⟨user.id, user.phone, false, e⟩],
          failed := job.failed + 1,
          processed := job.processed + 1 }, delays)

/-- The result record `_process_distribution` appends for the recipient at a
given index, as a function of the oracles: failure with the exception text if
compositing raised, otherwise success with the api response or failure with
the send exception text. -/
def distribution_result (env : DistEnv) (index : Nat) (user : User) : RecipientResult :=
  match env.composite index with
  | Except.error e => ⟨user.id, user.phone, false, e⟩
  | Except.ok _ =>
    match env.send index with
    | Except.ok api => ⟨user.id, user.phone, true, api⟩
    | Except.error e => ⟨user.id, user.phone, false, e⟩

/-- The task `_process_distribution` (src/routes/posts.py lines 142-190): run the loop
over the user list starting from the freshly created job record, then set
status to completed and record the completion timestamp. -/
def process_distribution (env : DistEnv) (users : List User) : RunResult RecipientResult :=
  let init := initJob RecipientResult users.length
  let r := runLoop (process_distribution_step env) 0 users init
  let final := { r.1 with status := JobStatus.completed, completedAt := true }
  { job := final, awaited := r.2.1, trace := init :: r.2.2 ++ [final] }

/-! ## Subscribers route: `_process_subscriber_distribution`
(src/routes/subscribers.py lines 184-283) -/

/-- A subscriber record as consumed by the loop: id (subscriber["_id"]),
name and phone (with the defaults the code uses for missing fields). The stored
overlay only feeds the compositing collaborator, absorbed into the oracle. -/
structure Subscriber where
  id : String
  name : String
  phone : String
deriving DecidableEq, Repr

/-- A per-recipient result dictionary appended by
`_process_subscriber_distribution` (src/routes/subscribers.py lines 252-258
and 264-270): subscriber_id, name, phone, success flag, and either the
api_response or the error text. -/
structure SubResult where
  subscriberId : String
  name : String
  phone : String
  success : Bool
  info : String
deriving DecidableEq, Repr

/-- Oracles for one `_process_subscriber_distribution` run.
`structuredOutput` is the outcome of generate_structured_output: the
(prompt, caption) pair, or the text of the raised exception. `imageGen` is the
outcome of generate_image on the prompt. `composite i` is the outcome of the
fallible pre-delay work at subscriber index i (base64 overlay decode,
overlay_subscriber_image, image_to_base64, lines 230-238). `randSeed i` feeds
the randint draw at index i. `send i` is the outcome of send_to_whatsapp. -/
structure SubEnv where
  structuredOutput : Except String (String × String)
  imageGen : Except String Unit
  composite : Nat → Except String Unit
  randSeed : Nat → Nat
  send : Nat → Except String String
deriving Inhabited

/-- The pre-loop content generation phase of `_process_subscriber_distribution`
(src/routes/subscribers.py lines 202-225): generate the structured output and
the base image inside a try block whose except branch produces the message
"Image generation failed: " followed by the exception text; between the two
calls, an empty image prompt is rejected with "Failed to generate image
prompt". The caption, used only by the send collaborator, is absorbed into
the send oracle. -/
def sub_preloop (env : SubEnv) : Except String Unit :=
  match env.structuredOutput with
  | Except.error e => Except.error ("Image generation failed: " ++ e)
  | Except.ok pc =>
    if pc.1 = "" then Except.error "Failed to generate image prompt"
    else
      match env.imageGen with
      | Except.error e => Except.error ("Image generation failed: " ++ e)
      | Except.ok _ => Except.ok ()

/-- One iteration of the subscriber loop
(src/routes/subscribers.py lines 227-272): same shape as the users route, but
the delay window is randint(240, 480) and the result records carry the name. -/
def process_subscriber_distribution_step (env : SubEnv) (index : Nat)
    (sub : Subscriber) (job : Job SubResult) : Job SubResult × List (Nat × Nat) :=
  match env.composite index with
  | Except.error e =>
    ({ job with
        results := job.results ++ [⟨sub.id, sub.name, sub.phone, false, e⟩],
        failed := job.failed + 1,
        processed := job.processed + 1 }, [])
  | Except.ok _ =>
    let delays := if index > 0 then [(index, randint 240 480 (env.randSeed index))] else []
    match env.send index with
    | Except.ok api =>
      ({ job with
          results := job.results ++ [⟨sub.id, sub.name, sub.phone, true, api⟩],
          successful := job.successful + 1,
          processed := job.processed + 1 }, delays)
    | Except.error e =>
      ({ job with
          results := job.results ++ [⟨sub.id, sub.name, sub.phone, false, e⟩],
          failed := job.failed + 1,
          processed := job.processed + 1 }, delays)

/-- The result record `_process_subscriber_distribution` appends for the
subscriber at a given index, as a function of the oracles. -/
def subscriber_result (env : SubEnv) (index : Nat) (sub : Subscriber) : SubResult :=
  match env.composite index with
  | Except.error e => ⟨sub.id, sub.name, sub.phone, false, e⟩
  | Except.ok _ =>
    match env.send index with
    | Except.ok api => ⟨sub.id, sub.name, sub.phone, true, api⟩
    | Except.error e => ⟨sub.id, sub.name, sub.phone, false, e⟩

/-- The task `_process_subscriber_distribution` (src/routes/subscribers.py lines
184-283): if the pre-loop content generation phase fails, set status to failed
with the error message and return without entering the loop; otherwise run
the loop over the subscriber list, then set status to completed and record
the completion timestamp. -/
def process_subscriber_distribution (env : SubEnv) (subs : List Subscriber) :
    RunResult SubResult :=
  let init := initJob SubResult subs.length
  match sub_preloop env with
  | Except.error msg =>
    let j := { init with status := JobStatus.failed, error := some msg }
    { job := j, awaited := [], trace := [init, j] }
  | Except.ok _ =>
    let r := runLoop (process_subscriber_distribution_step env) 0 subs init
    let final := { r.1 with status := JobStatus.completed, completedAt := true }
    { job := final, awaited := r.2.1, trace := init :: r.2.2 ++ [final] }

/-! ## Delivery client: `send_to_whatsapp` (src/app.py lines 244-250)

The routes call `send_to_whatsapp(image_b64, caption, phone=...)` from the
services module, which is not under src/; the src/app.py variant is identical
except that it reads the destination phone from the PHONE_NUMBER configuration
constant instead of a parameter. Modelled from the spec contract
`send(imageBase64, caption, phone)` with the body of src/app.py. -/

/-- The fixed webhook URL (src/app.py line 31). -/
def SEND_MEDIA_URL : String := "https://fast.meteor-fitness.com/send-media?type=base64"

/-- One outbound HTTP POST as issued by the delivery client: target URL, the
three JSON payload fields, and the request timeout in seconds. -/
structure WebhookRequest where
  url : String
  phone : String
  message : String
  caption : String
  timeoutSeconds : Nat
deriving DecidableEq, Repr

/-- The client `send_to_whatsapp` (src/app.py lines 244-250, phone parameter from the
spec contract): build the payload {phone, message: image_base64, caption},
issue exactly one POST to SEND_MEDIA_URL with a 60 second timeout, and return
the transport outcome unchanged — a transport failure or timeout propagates as
the raised exception, with no internal retry. `transport` is the httpx client
oracle: the parsed JSON response, or the text of the raised exception.
Returns the list of requests issued together with the outcome. -/
def send_to_whatsapp (transport : WebhookRequest → Except String String)
    (image_base64 caption phone : String) : List WebhookRequest × Except String String :=
  let req : WebhookRequest :=
    { url := SEND_MEDIA_URL, phone := phone, message := image_base64,
      caption := caption, timeoutSeconds := 60 }
  ([req], transport req)

/-! ## Image encoding: `image_to_base64` (src/app.py lines 229-241)

Images in this program are PIL rasters in mode "RGB" or "RGBA" (every producer
in the repository converts to one of these two). A pixel is four 8-bit
channels; in mode RGB the alpha channel is unused and carries 255. The PNG
serialization and the base64 transport encoding are external library calls
whose contract is lossless round-tripping; they are modelled as a concrete
invertible serialization of the raster into a byte stream, so that the
round-trip is a theorem about an executable codec rather than an assumption. -/

/-- PIL image mode, restricted to the two modes that occur in this program. -/
inductive PixMode
  | RGB
  | RGBA
deriving DecidableEq, Repr

/-- One pixel: red, green, blue, alpha channels. -/
structure Pixel where
  r : Nat
  g : Nat
  b : Nat
  a : Nat
deriving DecidableEq, Repr

/-- A PIL raster: mode, pixel dimensions, and the pixel data in row order. -/
structure PILImage where
  mode : PixMode
  width : Nat
  height : Nat
  pixels : List Pixel
deriving DecidableEq, Repr

/-- PIL channel blend primitive MULDIV255(x, y): (x*y + 128) rounded division
by 255 as implemented in Pillow (tmp := x*y + 128; ((tmp >> 8) + tmp) >> 8). -/
def muldiv255 (x y : Nat) : Nat := ((x * y + 128) / 256 + (x * y + 128)) / 256

/-- One pixel of `background.paste(image, mask=alpha)` over a white background
(src/app.py lines 232-235): each colour channel is blended between the white
background (255) weighted by 255 - alpha and the source channel weighted by
alpha, using the Pillow paste blend; the result is opaque. -/
def blend_over_white (p : Pixel) : Pixel :=
  { r := muldiv255 255 (255 - p.a) + muldiv255 p.r p.a,
    g := muldiv255 255 (255 - p.a) + muldiv255 p.g p.a,
    b := muldiv255 255 (255 - p.a) + muldiv255 p.b p.a,
    a := 255 }

/-- The flattening step of `image_to_base64` (src/app.py lines 231-236): if and
only if the image mode is RGBA, paste it onto a white RGB background of the
same size using its alpha channel as mask; otherwise leave it unchanged. -/
def flatten_rgba (img : PILImage) : PILImage :=
  if img.mode = PixMode.RGBA then
    { mode := PixMode.RGB, width := img.width, height := img.height,
      pixels := img.pixels.map blend_over_white }
  else img

/-- Serialize the pixel list channel by channel (the lossless PNG pixel data). -/
def png_encode_pixels : List Pixel → List Nat
  | [] => []
  | p :: ps => p.r :: p.g :: p.b :: p.a :: png_encode_pixels ps

/-- Recover the pixel list from the serialized channel stream. -/
def png_decode_pixels : List Nat → Option (List Pixel)
  | [] => some []
  | r :: g :: b :: a :: rest => (png_decode_pixels rest).map (fun ps => ⟨r, g, b, a⟩ :: ps)
  | _ => none

/-- Numeric tag of the image mode in the serialized header. -/
def mode_tag : PixMode → Nat
  | PixMode.RGB => 0
  | PixMode.RGBA => 1

/-- Lossless serialization of a raster (the PNG byte stream; base64 is a
bijection on byte streams and adds nothing, so the stream itself stands for
the base64 string): mode tag, width, height, then the pixel data. -/
def png_encode (img : PILImage) : List Nat :=
  mode_tag img.mode :: img.width :: img.height :: png_encode_pixels img.pixels

/-- Decode the serialized stream back into a raster. -/
def png_decode : List Nat → Option PILImage
  | m :: w :: h :: rest =>
    match m, png_decode_pixels rest with
    | 0, some ps => some { mode := PixMode.RGB, width := w, height := h, pixels := ps }
    | 1, some ps => some { mode := PixMode.RGBA, width := w, height := h, pixels := ps }
    | _, _ => none
  | _ => none

/-- The encoder `image_to_base64` (src/app.py lines 229-241): flatten an RGBA image onto a
white background, then losslessly encode the result for transport. -/
def image_to_base64 (img : PILImage) : List Nat := png_encode (flatten_rgba img)

/-! ## Structured content generation (src/app.py lines 134-155)
and the generate-post endpoint (src/routes/posts.py lines 27-79) -/

/-- The reply of the text-generation collaborator as the code consumes it:
either a text that json.loads rejects, or a parsed JSON object whose fields
are strings. -/
inductive GeminiReply
  | invalidJson
  | jsonObject (fields : List (String × String))
deriving DecidableEq, Repr

/-- The generator `generate_structured_output` (src/app.py lines 134-155): parse the reply
text as JSON; on a parse failure raise HTTPException 500 with detail
"Failed to parse Gemini response as JSON"; otherwise return the parsed object
unchecked — no field presence, type or emptiness validation happens here. -/
def generate_structured_output : GeminiReply → Except String (List (String × String))
  | GeminiReply.invalidJson => Except.error "Failed to parse Gemini response as JSON"
  | GeminiReply.jsonObject fields => Except.ok fields

/-- Python dict.get(key, default) over the parsed JSON object: the value of
the first matching key, or the default. -/
def dict_get (fields : List (String × String)) (key dflt : String) : String :=
  match fields.find? (fun kv => kv.1 == key) with
  | some kv => kv.2
  | none => dflt

/-- The prompt and caption extraction step that every caller runs right after
generate_structured_output (src/routes/posts.py lines 48-53, src/app.py lines
301-307): read "prompt" and "caption" with empty-string defaults and raise
HTTPException 500 with detail "Failed to generate image prompt" only when the
prompt is empty — the caption is never validated. -/
def extract_prompt_caption (reply : GeminiReply) : Except String (String × String) :=
  match generate_structured_output reply with
  | Except.error e => Except.error e
  | Except.ok fields =>
    let image_prompt := dict_get fields "prompt" ""
    let caption := dict_get fields "caption" ""
    if image_prompt = "" then Except.error "Failed to generate image prompt"
    else Except.ok (image_prompt, caption)

/-- Response model of the generate-post endpoints
(src/models/schemas.py lines 9-14). -/
structure GeneratePostResponse where
  success : Bool
  holiday : String
  caption : String
  message : String
deriving DecidableEq, Repr

/-- Holiday resolution of the generate-post endpoint
(src/routes/posts.py lines 38-45): use the query parameter when it is a
non-empty string, otherwise fall back to the CSV lookup; a still-missing or
empty holiday is a 404. Python truthiness: None and "" are both falsy. -/
def resolve_holiday (holidayParam csvHoliday : Option String) : Option String :=
  let h := match holidayParam with
    | none => csvHoliday
    | some s => if s = "" then csvHoliday else some s
  match h with
  | none => none
  | some s => if s = "" then none else some s

/-- The endpoint `generate_post` (src/routes/posts.py lines 27-79; src/app.py lines 296-321
is the same flow with fixed footer fields): resolve the holiday (404 when
none), generate and validate the structured output, render the image
(a raised generation exception propagates to the caller), composite and
encode (total), then send; the send call alone is wrapped in try/except, and
on an exception the endpoint returns success false with the message
"Post generated but failed to send: " followed by the exception text, still
carrying the holiday and caption. `imageGen` and `send` are the collaborator
oracles for this request. -/
def generate_post (holidayParam csvHoliday : Option String) (reply : GeminiReply)
    (imageGen : Except String Unit) (send : Except String String) (phone : String) :
    Except String GeneratePostResponse :=
  match resolve_holiday holidayParam csvHoliday with
  | none => Except.error "No holiday found for today and no holiday parameter provided"
  | some holiday =>
    match extract_prompt_caption reply with
    | Except.error e => Except.error e
    | Except.ok pc =>
      match imageGen with
      | Except.error e => Except.error e
      | Except.ok _ =>
        match send with
        | Except.ok _ =>
          Except.ok { success := true, holiday := holiday, caption := pc.2,
                      message := "Post generated and sent to " ++ phone ++ " successfully!" }
        | Except.error e =>
          Except.ok { success := false, holiday := holiday, caption := pc.2,
                      message := "Post generated but failed to send: " ++ e }

/-! ## Concrete runs used to exercise the theorems -/

/-- A two-user list for concrete runs. -/
def sampleUsers : List User := [⟨"u0", "5550001"⟩, ⟨"u1", "5550002"⟩]

/-- A two-subscriber list for concrete runs. -/
def sampleSubs : List Subscriber :=
  [⟨"s0", "Acme", "5550003"⟩, ⟨"s1", "Globex", "5550004"⟩]

/-- A users-route run in which every collaborator call succeeds. -/
def envAllOk : DistEnv :=
  { composite := fun _ => Except.ok (),
    randSeed := fun _ => 7,
    send := fun _ => Except.ok "sent" }

/-- A subscribers-route run in which every collaborator call succeeds. -/
def subEnvAllOk : SubEnv :=
  { structuredOutput := Except.ok ("a festive scene", "Happy holiday!"),
    imageGen := Except.ok (),
    composite := fun _ => Except.ok (),
    randSeed := fun _ => 7,
    send := fun _ => Except.ok "sent" }

/-- A users-route run in which compositing raises for the second recipient
(index 1) and everything else succeeds. -/
def envCompositeFailsAt1 : DistEnv :=
  { composite := fun i => if i = 1 then Except.error "cannot identify image file" else Except.ok (),
    randSeed := fun _ => 7,
    send := fun _ => Except.ok "sent" }

/-- A users-route run in which the send call raises for the first recipient
(index 0) and everything else succeeds. -/
def envSendFailsAt0 : DistEnv :=
  { composite := fun _ => Except.ok (),
    randSeed := fun _ => 7,
    send := fun i => if i = 0 then Except.error "Connection timed out" else Except.ok "sent" }

/-- A subscribers-route run in which the structured-output call raises. -/
def subEnvGenFails : SubEnv :=
  { structuredOutput := Except.error "503 service unavailable",
    imageGen := Except.ok (),
    composite := fun _ => Except.ok (),
    randSeed := fun _ => 7,
    send := fun _ => Except.ok "sent" }

/-- A collaborator reply that parses into a non-empty prompt and an empty
caption. -/
def replyEmptyCaption : GeminiReply :=
  GeminiReply.jsonObject [("prompt", "a festive scene"), ("caption", "")]

/-- A collaborator reply that parses into non-empty prompt and caption. -/
def replyOk : GeminiReply :=
  GeminiReply.jsonObject [("prompt", "a festive scene"), ("caption", "Happy holiday!")]

/-- A transport oracle that always times out. -/
def transportTimesOut : WebhookRequest → Except String String :=
  fun _ => Except.error "Connection timed out"

/-- A concrete 1 by 2 RGBA image with one semi-transparent pixel. -/
def sampleImage : PILImage :=
  { mode := PixMode.RGBA, width := 2, height := 1,
    pixels := [⟨10, 20, 30, 128⟩, ⟨200, 100, 0, 255⟩] }

/-! # Generic lemmas about the recipient loop -/

section LoopLemmas

variable {α ρ : Type} (step : Nat → α → Job ρ → Job ρ × List (Nat × Nat))

theorem runLoop_trace_length :
    ∀ (items : List α) (idx : Nat) (j : Job ρ),
      (runLoop step idx items j).2.2.length = items.length := by
  intro items
  induction items with
  | nil => intro idx j; simp [runLoop]
  | cons u rest ih => intro idx j; simp [runLoop, ih]

theorem runLoop_inv (P : Job ρ → Prop)
    (hstep : ∀ i u j, P j → P (step i u j).1) :
    ∀ (items : List α) (idx : Nat) (j : Job ρ), P j →
      P (runLoop step idx items j).1 ∧ ∀ s ∈ (runLoop step idx items j).2.2, P s := by
  intro items
  induction items with
  | nil => intro idx j hj; constructor
           · simpa [runLoop] using hj
           · intro s hs; simp [runLoop] at hs
  | cons u rest ih =>
    intro idx j hj
    have h1 : P (step idx u j).1 := hstep idx u j hj
    have h2 := ih (idx + 1) (step idx u j).1 h1
    constructor
    · simpa [runLoop] using h2.1
    · intro s hs
      simp only [runLoop, List.mem_cons] at hs
      rcases hs with h | h
      · exact h ▸ h1
      · exact h2.2 s h

theorem runLoop_chain (R : Job ρ → Job ρ → Prop)
    (hstep : ∀ i u j, R j (step i u j).1) :
    ∀ (items : List α) (idx : Nat) (j : Job ρ),
      List.Chain R j (runLoop step idx items j).2.2 := by
  intro items
  induction items with
  | nil => intro idx j; simp only [runLoop]; exact List.Chain.nil
  | cons u rest ih =>
    intro idx j
    simp only [runLoop]
    exact List.Chain.cons (hstep idx u j) (ih (idx + 1) (step idx u j).1)

theorem runLoop_processed
    (hstep : ∀ i u j, (step i u j).1.processed = j.processed + 1) :
    ∀ (items : List α) (idx : Nat) (j : Job ρ),
      (runLoop step idx items j).1.processed = j.processed + items.length := by
  intro items
  induction items with
  | nil => intro idx j; simp [runLoop]
  | cons u rest ih =>
    intro idx j
    have := ih (idx + 1) (step idx u j).1
    simp only [runLoop]
    rw [this, hstep idx u j]
    simp [Nat.add_assoc, Nat.add_comm 1]

theorem runLoop_getLast :
    ∀ (items : List α) (idx : Nat) (j : Job ρ),
      (j :: (runLoop step idx items j).2.2).getLast? = some (runLoop step idx items j).1 := by
  intro items
  induction items with
  | nil => intro idx j; simp [runLoop]
  | cons u rest ih =>
    intro idx j
    simp only [runLoop]
    rw [List.getLast?_cons_cons]
    exact ih (idx + 1) (step idx u j).1

theorem runLoop_results (mk : Nat → α → ρ)
    (hstep : ∀ i u j, (step i u j).1.results = j.results ++ [mk i u]) :
    ∀ (items : List α) (idx : Nat) (j : Job ρ),
      (runLoop step idx items j).1.results
        = j.results ++ (items.enumFrom idx).map (fun p => mk p.1 p.2) := by
  intro items
  induction items with
  | nil => intro idx j; simp [runLoop]
  | cons u rest ih =>
    intro idx j
    simp only [runLoop]
    rw [ih (idx + 1) (step idx u j).1, hstep idx u j]
    simp [List.enumFrom]

theorem runLoop_awaited_mem (Q : Nat × Nat → Prop)
    (hstep : ∀ i u j, ∀ p ∈ (step i u j).2, Q p) :
    ∀ (items : List α) (idx : Nat) (j : Job ρ),
      ∀ p ∈ (runLoop step idx items j).2.1, Q p := by
  intro items
  induction items with
  | nil => intro idx j p hp; simp [runLoop] at hp
  | cons u rest ih =>
    intro idx j p hp
    simp only [runLoop, List.mem_append] at hp
    rcases hp with h | h
    · exact hstep idx u j p h
    · exact ih (idx + 1) (step idx u j).1 p h

theorem runLoop_awaited_count
    (hstep : ∀ i u j, 1 ≤ i → ((step i u j).2).length = 1) :
    ∀ (items : List α) (idx : Nat) (j : Job ρ), 1 ≤ idx →
      ((runLoop step idx items j).2.1).length = items.length := by
  intro items
  induction items with
  | nil => intro idx j _; simp [runLoop]
  | cons u rest ih =>
    intro idx j hidx
    simp only [runLoop]
    rw [List.length_append, hstep idx u j hidx, ih (idx + 1) (step idx u j).1 (by omega)]
    simp [Nat.add_comm]

theorem runLoop_awaited_count_from_zero
    (hstep0 : ∀ u j, ((step 0 u j).2).length = 0)
    (hstep : ∀ i u j, 1 ≤ i → ((step i u j).2).length = 1) :
    ∀ (items : List α) (j : Job ρ),
      ((runLoop step 0 items j).2.1).length = items.length - 1 := by
  intro items j
  cases items with
  | nil => simp [runLoop]
  | cons u rest =>
    simp only [runLoop]
    rw [List.length_append, hstep0 u j,
        runLoop_awaited_count step hstep rest 1 (step 0 u j).1 (by omega)]
    simp

end LoopLemmas

/-! # Chain helpers for observation traces -/

theorem chain_getD {β : Type} (R : β → β → Prop) (d : β) :
    ∀ (l : List β) (a : β), List.Chain R a l →
      ∀ i, i + 1 < (a :: l).length → R ((a :: l).getD i d) ((a :: l).getD (i + 1) d) := by
  intro l
  induction l with
  | nil => intro a _ i hi; simp at hi
  | cons b l ih =>
    intro a hch i hi
    rw [List.chain_cons] at hch
    cases i with
    | zero => simpa using hch.1
    | succ k =>
      have := ih b hch.2 k (by simpa using hi)
      simpa using this

theorem chain_concat {β : Type} (R : β → β → Prop) :
    ∀ (l : List β) (a b : β), List.Chain R a l →
      (∀ c, (a :: l).getLast? = some c → R c b) → List.Chain R a (l ++ [b]) := by
  intro l
  induction l with
  | nil =>
    intro a b _ hlast
    exact List.Chain.cons (hlast a (by simp)) List.Chain.nil
  | cons c l ih =>
    intro a b hch hlast
    rw [List.chain_cons] at hch
    refine List.Chain.cons hch.1 (ih c b hch.2 ?_)
    intro x hx
    exact hlast x (by rw [List.getLast?_cons_cons]; exact hx)

theorem getD_mono_of_adjacent {β : Type} (l : List β) (f : β → Nat) (d : β)
    (hadj : ∀ i, i + 1 < l.length → f (l.getD i d) ≤ f (l.getD (i + 1) d)) :
    ∀ i j, i ≤ j → j < l.length → f (l.getD i d) ≤ f (l.getD j d) := by
  intro i j hij
  induction j, hij using Nat.le_induction with
  | base => intro _; exact Nat.le_refl _
  | succ k hk ihk =>
    intro hk1
    exact Nat.le_trans (ihk (by omega)) (hadj k hk1)

/-! # Properties of the per-iteration steps -/

theorem randint_bounds (a b s : Nat) (h : a ≤ b) :
    a ≤ randint a b s ∧ randint a b s ≤ b := by
  unfold randint
  have hm : s % (b + 1 - a) < b + 1 - a := Nat.mod_lt _ (by omega)
  omega

theorem process_distribution_step_spec (env : DistEnv) (i : Nat) (u : User)
    (j : Job RecipientResult) :
    (process_distribution_step env i u j).1.processed = j.processed + 1 ∧
    (process_distribution_step env i u j).1.results = j.results ++ [distribution_result env i u] ∧
    (process_distribution_step env i u j).1.successful
      = j.successful + (if (distribution_result env i u).success then 1 else 0) ∧
    (process_distribution_step env i u j).1.failed
      = j.failed + (if (distribution_result env i u).success then 0 else 1) ∧
    (process_distribution_step env i u j).1.status = j.status ∧
    (process_distribution_step env i u j).1.total = j.total ∧
    (process_distribution_step env i u j).1.error = j.error ∧
    (process_distribution_step env i u j).1.completedAt = j.completedAt := by
  unfold process_distribution_step distribution_result
  rcases env.composite i with e | v
  · simp
  · rcases env.send i with e | api <;> simp

theorem process_distribution_step_delays (env : DistEnv) (i : Nat) (u : User)
    (j : Job RecipientResult) :
    ∀ p ∈ (process_distribution_step env i u j).2, 1 ≤ p.1 ∧ 30 ≤ p.2 ∧ p.2 ≤ 300 := by
  unfold process_distribution_step
  rcases env.composite i with e | v
  · simp
  · rcases env.send i with e | api <;>
    · intro p hp
      by_cases hi : i > 0 <;> simp [hi] at hp
      subst hp
      have hb := randint_bounds 30 300 (env.randSeed i) (by omega)
      exact ⟨hi, hb.1, hb.2⟩

theorem process_distribution_step_delay_zero (env : DistEnv) (u : User)
    (j : Job RecipientResult) :
    ((process_distribution_step env 0 u j).2).length = 0 := by
  unfold process_distribution_step
  rcases env.composite 0 with e | v
  · simp
  · rcases env.send 0 with e | api <;> simp

theorem process_distribution_step_delay_one (env : DistEnv) (i : Nat) (u : User)
    (j : Job RecipientResult) (hok : env.composite i = Except.ok ()) (hi : 1 ≤ i) :
    ((process_distribution_step env i u j).2).length = 1 := by
  unfold process_distribution_step
  rw [hok]
  have hipos : i > 0 := hi
  rcases env.send i with e | api <;> simp [hipos]

theorem process_subscriber_distribution_step_spec (env : SubEnv) (i : Nat)
    (u : Subscriber) (j : Job SubResult) :
    (process_subscriber_distribution_step env i u j).1.processed = j.processed + 1 ∧
    (process_subscriber_distribution_step env i u j).1.results
      = j.results ++ [subscriber_result env i u] ∧
    (process_subscriber_distribution_step env i u j).1.successful
      = j.successful + (if (subscriber_result env i u).success then 1 else 0) ∧
    (process_subscriber_distribution_step env i u j).1.failed
      = j.failed + (if (subscriber_result env i u).success then 0 else 1) ∧
    (process_subscriber_distribution_step env i u j).1.status = j.status ∧
    (process_subscriber_distribution_step env i u j).1.total = j.total ∧
    (process_subscriber_distribution_step env i u j).1.error = j.error ∧
    (process_subscriber_distribution_step env i u j).1.completedAt = j.completedAt := by
  unfold process_subscriber_distribution_step subscriber_result
  rcases env.composite i with e | v
  · simp
  · rcases env.send i with e | api <;> simp

theorem process_subscriber_distribution_step_delays (env : SubEnv) (i : Nat)
    (u : Subscriber) (j : Job SubResult) :
    ∀ p ∈ (process_subscriber_distribution_step env i u j).2,
      1 ≤ p.1 ∧ 240 ≤ p.2 ∧ p.2 ≤ 480 := by
  unfold process_subscriber_distribution_step
  rcases env.composite i with e | v
  · simp
  · rcases env.send i with e | api <;>
    · intro p hp
      by_cases hi : i > 0 <;> simp [hi] at hp
      subst hp
      have hb := randint_bounds 240 480 (env.randSeed i) (by omega)
      exact ⟨hi, hb.1, hb.2⟩

theorem process_subscriber_distribution_step_delay_zero (env : SubEnv)
    (u : Subscriber) (j : Job SubResult) :
    ((process_subscriber_distribution_step env 0 u j).2).length = 0 := by
  unfold process_subscriber_distribution_step
  rcases env.composite 0 with e | v
  · simp
  · rcases env.send 0 with e | api <;> simp

theorem process_subscriber_distribution_step_delay_one (env : SubEnv) (i : Nat)
    (u : Subscriber) (j : Job SubResult) (hok : env.composite i = Except.ok ())
    (hi : 1 ≤ i) :
    ((process_subscriber_distribution_step env i u j).2).length = 1 := by
  unfold process_subscriber_distribution_step
  rw [hok]
  have hipos : i > 0 := hi
  rcases env.send i with e | api <;> simp [hipos]

/-! # Route-level lemmas: users route -/

theorem process_distribution_trace_eq (env : DistEnv) (users : List User) :
    (process_distribution env users).trace
      = initJob RecipientResult users.length
          :: (runLoop (process_distribution_step env) 0 users
                (initJob RecipientResult users.length)).2.2
          ++ [(process_distribution env users).job] := rfl

theorem process_distribution_job_eq (env : DistEnv) (users : List User) :
    (process_distribution env users).job
      = { (runLoop (process_distribution_step env) 0 users
            (initJob RecipientResult users.length)).1 with
          status := JobStatus.completed, completedAt := true } := rfl

theorem pd_step_preserves_inv (env : DistEnv) (t i : Nat) (u : User)
    (j : Job RecipientResult)
    (h1 : j.processed = j.successful + j.failed)
    (h2 : j.processed = j.results.length)
    (h3 : j.total = t)
    (h4 : j.successful = (j.results.filter (fun r => r.success)).length)
    (h5 : j.failed = (j.results.filter (fun r => ! r.success)).length) :
    (process_distribution_step env i u j).1.processed
        = (process_distribution_step env i u j).1.successful
          + (process_distribution_step env i u j).1.failed ∧
    (process_distribution_step env i u j).1.processed
        = (process_distribution_step env i u j).1.results.length ∧
    (process_distribution_step env i u j).1.total = t ∧
    (process_distribution_step env i u j).1.successful
        = ((process_distribution_step env i u j).1.results.filter
            (fun r => r.success)).length ∧
    (process_distribution_step env i u j).1.failed
        = ((process_distribution_step env i u j).1.results.filter
            (fun r => ! r.success)).length := by
  obtain ⟨s1, s2, s3, s4, s5, s6, s7, s8⟩ := process_distribution_step_spec env i u j
  by_cases hsucc : (distribution_result env i u).success <;>
    simp [s1, s2, s3, s4, s5, s6, h1, h2, h3, h4, h5, hsucc, List.filter_append] <;>
    omega

theorem process_distribution_trace_inv (env : DistEnv) (users : List User) :
    ∀ s ∈ (process_distribution env users).trace,
      s.processed = s.successful + s.failed ∧
      s.processed = s.results.length ∧
      s.total = users.length ∧
      s.successful = (s.results.filter (fun r => r.success)).length ∧
      s.failed = (s.results.filter (fun r => ! r.success)).length := by
  intro s hs
  have hinit : (initJob RecipientResult users.length).processed
      = (initJob RecipientResult users.length).successful
        + (initJob RecipientResult users.length).failed ∧
      (initJob RecipientResult users.length).processed
      = (initJob RecipientResult users.length).results.length ∧
      (initJob RecipientResult users.length).total = users.length ∧
      (initJob RecipientResult users.length).successful
      = ((initJob RecipientResult users.length).results.filter
          (fun r => r.success)).length ∧
      (initJob RecipientResult users.length).failed
      = ((initJob RecipientResult users.length).results.filter
          (fun r => ! r.success)).length := by
    simp [initJob]
  have hloop := runLoop_inv (process_distribution_step env)
    (fun j => j.processed = j.successful + j.failed ∧
      j.processed = j.results.length ∧
      j.total = users.length ∧
      j.successful = (j.results.filter (fun r => r.success)).length ∧
      j.failed = (j.results.filter (fun r => ! r.success)).length)
    (fun i u j hj => pd_step_preserves_inv env users.length i u j
      hj.1 hj.2.1 hj.2.2.1 hj.2.2.2.1 hj.2.2.2.2)
    users 0 (initJob RecipientResult users.length) hinit
  rw [process_distribution_trace_eq] at hs
  simp only [List.mem_cons, List.mem_append, List.mem_singleton] at hs
  rcases hs with (h | h) | h | h
  · exact h ▸ hinit
  · exact hloop.2 s h
  · rw [h, process_distribution_job_eq]
    exact hloop.1
  · simp at h

theorem process_distribution_awaited_eq (env : DistEnv) (users : List User) :
    (process_distribution env users).awaited
      = (runLoop (process_distribution_step env) 0 users
          (initJob RecipientResult users.length)).2.1 := rfl

theorem enumFrom_getElem_eq {α : Type} :
    ∀ (l : List α) (n k : Nat), (l.enumFrom n)[k]? = l[k]?.map (fun a => (n + k, a)) := by
  intro l
  induction l with
  | nil => intro n k; simp [List.enumFrom]
  | cons a l ih =>
    intro n k
    cases k with
    | zero => simp [List.enumFrom]
    | succ m =>
      have := ih (n + 1) m
      simp only [List.enumFrom, List.getElem?_cons_succ, this]
      have harith : n + 1 + m = n + (m + 1) := by omega
      rw [harith]

theorem process_distribution_trace_mono (env : DistEnv) (users : List User) :
    ∀ i j, i ≤ j → j < (process_distribution env users).trace.length →
      ((process_distribution env users).trace.getD i (initJob RecipientResult 0)).processed
        ≤ ((process_distribution env users).trace.getD j (initJob RecipientResult 0)).processed ∧
      ((process_distribution env users).trace.getD i (initJob RecipientResult 0)).successful
        ≤ ((process_distribution env users).trace.getD j (initJob RecipientResult 0)).successful ∧
      ((process_distribution env users).trace.getD i (initJob RecipientResult 0)).failed
        ≤ ((process_distribution env users).trace.getD j (initJob RecipientResult 0)).failed := by
  have hstepR : ∀ (i : Nat) (u : User) (j : Job RecipientResult),
      j.processed ≤ (process_distribution_step env i u j).1.processed ∧
      j.successful ≤ (process_distribution_step env i u j).1.successful ∧
      j.failed ≤ (process_distribution_step env i u j).1.failed := by
    intro i u j
    obtain ⟨s1, s2, s3, s4, s5, s6, s7, s8⟩ := process_distribution_step_spec env i u j
    refine ⟨?_, ?_, ?_⟩ <;> omega
  have hchainloop := runLoop_chain (process_distribution_step env)
    (fun a b => a.processed ≤ b.processed ∧ a.successful ≤ b.successful ∧ a.failed ≤ b.failed)
    (fun i u j => hstepR i u j)
    users 0 (initJob RecipientResult users.length)
  have hlast := runLoop_getLast (process_distribution_step env) users 0
    (initJob RecipientResult users.length)
  have hchainfull := chain_concat
    (fun a b => a.processed ≤ b.processed ∧ a.successful ≤ b.successful ∧ a.failed ≤ b.failed)
    (runLoop (process_distribution_step env) 0 users (initJob RecipientResult users.length)).2.2
    (initJob RecipientResult users.length)
    (process_distribution env users).job
    hchainloop
    (by
      intro c hc
      rw [hlast] at hc
      have hcv := Option.some.inj hc
      rw [← hcv, process_distribution_job_eq]
      exact ⟨Nat.le_refl _, Nat.le_refl _, Nat.le_refl _⟩)
  have hadj : ∀ i, i + 1 < (process_distribution env users).trace.length →
      (fun a b => a.processed ≤ b.processed ∧ a.successful ≤ b.successful ∧
        a.failed ≤ b.failed)
        ((process_distribution env users).trace.getD i (initJob RecipientResult 0))
        ((process_distribution env users).trace.getD (i + 1) (initJob RecipientResult 0)) := by
    rw [process_distribution_trace_eq]
    exact chain_getD _ (initJob RecipientResult 0) _ _ hchainfull
  intro i j hij hj
  refine ⟨?_, ?_, ?_⟩
  · exact getD_mono_of_adjacent _ (fun s => s.processed) _
      (fun k hk => (hadj k hk).1) i j hij hj
  · exact getD_mono_of_adjacent _ (fun s => s.successful) _
      (fun k hk => (hadj k hk).2.1) i j hij hj
  · exact getD_mono_of_adjacent _ (fun s => s.failed) _
      (fun k hk => (hadj k hk).2.2) i j hij hj

theorem process_distribution_step_chain (env : DistEnv) (users : List User) :
    List.Chain' (fun a b => b.processed = a.processed + 1)
      (process_distribution env users).trace.dropLast := by
  have : (process_distribution env users).trace.dropLast
      = initJob RecipientResult users.length
          :: (runLoop (process_distribution_step env) 0 users
                (initJob RecipientResult users.length)).2.2 := by
    rw [process_distribution_trace_eq, List.dropLast_concat]
  rw [this]
  exact runLoop_chain (process_distribution_step env)
    (fun a b => b.processed = a.processed + 1)
    (fun i u j => (process_distribution_step_spec env i u j).1)
    users 0 (initJob RecipientResult users.length)

theorem process_distribution_status (env : DistEnv) (users : List User) :
    (∀ s ∈ (process_distribution env users).trace.dropLast, s.status = JobStatus.running) ∧
    (process_distribution env users).trace.getLast?
      = some (process_distribution env users).job ∧
    (process_distribution env users).job.status = JobStatus.completed ∧
    (process_distribution env users).job.completedAt = true ∧
    (process_distribution env users).trace.length = users.length + 2 := by
  have hdrop : (process_distribution env users).trace.dropLast
      = initJob RecipientResult users.length
          :: (runLoop (process_distribution_step env) 0 users
                (initJob RecipientResult users.length)).2.2 := by
    rw [process_distribution_trace_eq, List.dropLast_concat]
  have hloop := runLoop_inv (process_distribution_step env)
    (fun j => j.status = JobStatus.running)
    (fun i u j hj => by
      show (process_distribution_step env i u j).1.status = JobStatus.running
      rw [(process_distribution_step_spec env i u j).2.2.2.2.1]; exact hj)
    users 0 (initJob RecipientResult users.length) rfl
  refine ⟨?_, ?_, ?_, ?_, ?_⟩
  · intro s hs
    rw [hdrop] at hs
    rcases List.mem_cons.mp hs with h | h
    · rw [h]; rfl
    · exact hloop.2 s h
  · rw [process_distribution_trace_eq]
    exact List.getLast?_concat _
  · rw [process_distribution_job_eq]
  · rw [process_distribution_job_eq]
  · rw [process_distribution_trace_eq]
    simp [runLoop_trace_length]

theorem process_distribution_final (env : DistEnv) (users : List User) :
    (process_distribution env users).job.processed = users.length ∧
    (process_distribution env users).job.total = users.length ∧
    (process_distribution env users).job.results
      = (users.enumFrom 0).map (fun p => distribution_result env p.1 p.2) := by
  have hproc := runLoop_processed (process_distribution_step env)
    (fun i u j => (process_distribution_step_spec env i u j).1)
    users 0 (initJob RecipientResult users.length)
  have htot := runLoop_inv (process_distribution_step env)
    (fun j => j.total = users.length)
    (fun i u j hj => by
      show (process_distribution_step env i u j).1.total = users.length
      rw [(process_distribution_step_spec env i u j).2.2.2.2.2.1]; exact hj)
    users 0 (initJob RecipientResult users.length) rfl
  have hres := runLoop_results (process_distribution_step env)
    (distribution_result env)
    (fun i u j => (process_distribution_step_spec env i u j).2.1)
    users 0 (initJob RecipientResult users.length)
  rw [process_distribution_job_eq]
  refine ⟨?_, ?_, ?_⟩
  · simpa [initJob] using hproc
  · simpa using htot.1
  · simpa [initJob] using hres

theorem process_distribution_results_get (env : DistEnv) (users : List User) (k : Nat) :
    (process_distribution env users).job.results[k]?
      = users[k]?.map (fun u => distribution_result env k u) := by
  rw [(process_distribution_final env users).2.2]
  rw [List.getElem?_map, enumFrom_getElem_eq]
  cases users[k]? <;> simp

theorem process_distribution_awaited_bounds (env : DistEnv) (users : List User) :
    ∀ p ∈ (process_distribution env users).awaited, 1 ≤ p.1 ∧ 30 ≤ p.2 ∧ p.2 ≤ 300 := by
  rw [process_distribution_awaited_eq]
  exact runLoop_awaited_mem (process_distribution_step env) _
    (fun i u j => process_distribution_step_delays env i u j)
    users 0 (initJob RecipientResult users.length)

theorem process_distribution_awaited_count (env : DistEnv) (users : List User)
    (hok : ∀ k, env.composite k = Except.ok ()) :
    (process_distribution env users).awaited.length = users.length - 1 := by
  rw [process_distribution_awaited_eq]
  exact runLoop_awaited_count_from_zero (process_distribution_step env)
    (fun u j => process_distribution_step_delay_zero env u j)
    (fun i u j hi => process_distribution_step_delay_one env i u j (hok i) hi)
    users (initJob RecipientResult users.length)

/-! # Route-level lemmas: subscribers route -/

theorem process_subscriber_distribution_ok_eq (env : SubEnv) (subs : List Subscriber)
    (h : sub_preloop env = Except.ok ()) :
    process_subscriber_distribution env subs
      = { job := { (runLoop (process_subscriber_distribution_step env) 0 subs
                      (initJob SubResult subs.length)).1 with
                   status := JobStatus.completed, completedAt := true },
          awaited := (runLoop (process_subscriber_distribution_step env) 0 subs
                        (initJob SubResult subs.length)).2.1,
          trace := initJob SubResult subs.length
                     :: (runLoop (process_subscriber_distribution_step env) 0 subs
                          (initJob SubResult subs.length)).2.2
                     ++ [{ (runLoop (process_subscriber_distribution_step env) 0 subs
                             (initJob SubResult subs.length)).1 with
                           status := JobStatus.completed, completedAt := true }] } := by
  unfold process_subscriber_distribution
  rw [h]

theorem process_subscriber_distribution_err_eq (env : SubEnv) (subs : List Subscriber)
    (msg : String) (h : sub_preloop env = Except.error msg) :
    process_subscriber_distribution env subs
      = { job := { initJob SubResult subs.length with
                   status := JobStatus.failed, error := some msg },
          awaited := [],
          trace := [initJob SubResult subs.length,
                    { initJob SubResult subs.length with
                      status := JobStatus.failed, error := some msg }] } := by
  unfold process_subscriber_distribution
  rw [h]

theorem sub_preloop_cases (env : SubEnv) :
    (∀ e, env.structuredOutput = Except.error e →
      sub_preloop env = Except.error ("Image generation failed: " ++ e)) ∧
    (∀ p c, env.structuredOutput = Except.ok (p, c) → p = "" →
      sub_preloop env = Except.error "Failed to generate image prompt") ∧
    (∀ p c e, env.structuredOutput = Except.ok (p, c) → p ≠ "" →
      env.imageGen = Except.error e →
      sub_preloop env = Except.error ("Image generation failed: " ++ e)) ∧
    (∀ p c, env.structuredOutput = Except.ok (p, c) → p ≠ "" →
      env.imageGen = Except.ok () →
      sub_preloop env = Except.ok ()) := by
  unfold sub_preloop
  refine ⟨?_, ?_, ?_, ?_⟩ <;> intros <;> simp_all

theorem process_subscriber_distribution_err_facts (env : SubEnv) (subs : List Subscriber)
    (msg : String) (h : sub_preloop env = Except.error msg) :
    (process_subscriber_distribution env subs).job.status = JobStatus.failed ∧
    (process_subscriber_distribution env subs).job.error = some msg ∧
    (process_subscriber_distribution env subs).job.processed = 0 ∧
    (process_subscriber_distribution env subs).job.successful = 0 ∧
    (process_subscriber_distribution env subs).job.failed = 0 ∧
    (process_subscriber_distribution env subs).job.results = [] ∧
    (process_subscriber_distribution env subs).job.total = subs.length ∧
    (process_subscriber_distribution env subs).awaited = [] ∧
    (process_subscriber_distribution env subs).trace.length = 2 ∧
    (process_subscriber_distribution env subs).trace.getLast?
      = some (process_subscriber_distribution env subs).job := by
  rw [process_subscriber_distribution_err_eq env subs msg h]
  simp [initJob]

theorem psd_step_preserves_inv (env : SubEnv) (t i : Nat) (u : Subscriber)
    (j : Job SubResult)
    (h1 : j.processed = j.successful + j.failed)
    (h2 : j.processed = j.results.length)
    (h3 : j.total = t)
    (h4 : j.successful = (j.results.filter (fun r => r.success)).length)
    (h5 : j.failed = (j.results.filter (fun r => ! r.success)).length) :
    (process_subscriber_distribution_step env i u j).1.processed
        = (process_subscriber_distribution_step env i u j).1.successful
          + (process_subscriber_distribution_step env i u j).1.failed ∧
    (process_subscriber_distribution_step env i u j).1.processed
        = (process_subscriber_distribution_step env i u j).1.results.length ∧
    (process_subscriber_distribution_step env i u j).1.total = t ∧
    (process_subscriber_distribution_step env i u j).1.successful
        = ((process_subscriber_distribution_step env i u j).1.results.filter
            (fun r => r.success)).length ∧
    (process_subscriber_distribution_step env i u j).1.failed
        = ((process_subscriber_distribution_step env i u j).1.results.filter
            (fun r => ! r.success)).length := by
  obtain ⟨s1, s2, s3, s4, s5, s6, s7, s8⟩ := process_subscriber_distribution_step_spec env i u j
  by_cases hsucc : (subscriber_result env i u).success <;>
    simp [s1, s2, s3, s4, s5, s6, h1, h2, h3, h4, h5, hsucc, List.filter_append] <;>
    omega

theorem process_subscriber_distribution_trace_inv (env : SubEnv) (subs : List Subscriber) :
    ∀ s ∈ (process_subscriber_distribution env subs).trace,
      s.processed = s.successful + s.failed ∧
      s.processed = s.results.length ∧
      s.total = subs.length ∧
      s.successful = (s.results.filter (fun r => r.success)).length ∧
      s.failed = (s.results.filter (fun r => ! r.success)).length := by
  intro s hs
  rcases hpre : sub_preloop env with msg | hu
  · rw [process_subscriber_distribution_err_eq env subs msg hpre] at hs
    simp only [List.mem_cons, List.not_mem_nil, or_false] at hs
    rcases hs with h | h <;> rw [h] <;> simp [initJob]
  · cases hu
    have hinit : (initJob SubResult subs.length).processed
        = (initJob SubResult subs.length).successful
          + (initJob SubResult subs.length).failed ∧
        (initJob SubResult subs.length).processed
        = (initJob SubResult subs.length).results.length ∧
        (initJob SubResult subs.length).total = subs.length ∧
        (initJob SubResult subs.length).successful
        = ((initJob SubResult subs.length).results.filter
            (fun r => r.success)).length ∧
        (initJob SubResult subs.length).failed
        = ((initJob SubResult subs.length).results.filter
            (fun r => ! r.success)).length := by
      simp [initJob]
    have hloop := runLoop_inv (process_subscriber_distribution_step env)
      (fun j => j.processed = j.successful + j.failed ∧
        j.processed = j.results.length ∧
        j.total = subs.length ∧
        j.successful = (j.results.filter (fun r => r.success)).length ∧
        j.failed = (j.results.filter (fun r => ! r.success)).length)
      (fun i u j hj => psd_step_preserves_inv env subs.length i u j
        hj.1 hj.2.1 hj.2.2.1 hj.2.2.2.1 hj.2.2.2.2)
      subs 0 (initJob SubResult subs.length) hinit
    rw [process_subscriber_distribution_ok_eq env subs hpre] at hs
    simp only [List.mem_cons, List.mem_append, List.mem_singleton] at hs
    rcases hs with (h | h) | h | h
    · exact h ▸ hinit
    · exact hloop.2 s h
    · rw [h]
      exact hloop.1
    · simp at h

theorem process_subscriber_distribution_job_eq (env : SubEnv) (subs : List Subscriber)
    (h : sub_preloop env = Except.ok ()) :
    (process_subscriber_distribution env subs).job
      = { (runLoop (process_subscriber_distribution_step env) 0 subs
            (initJob SubResult subs.length)).1 with
          status := JobStatus.completed, completedAt := true } := by
  rw [process_subscriber_distribution_ok_eq env subs h]

theorem process_subscriber_distribution_trace_ok_eq (env : SubEnv) (subs : List Subscriber)
    (h : sub_preloop env = Except.ok ()) :
    (process_subscriber_distribution env subs).trace
      = initJob SubResult subs.length
          :: (runLoop (process_subscriber_distribution_step env) 0 subs
                (initJob SubResult subs.length)).2.2
          ++ [(process_subscriber_distribution env subs).job] := by
  rw [process_subscriber_distribution_job_eq env subs h,
      process_subscriber_distribution_ok_eq env subs h]

theorem process_subscriber_distribution_trace_mono (env : SubEnv) (subs : List Subscriber) :
    ∀ i j, i ≤ j → j < (process_subscriber_distribution env subs).trace.length →
      ((process_subscriber_distribution env subs).trace.getD i (initJob SubResult 0)).processed
        ≤ ((process_subscriber_distribution env subs).trace.getD j (initJob SubResult 0)).processed ∧
      ((process_subscriber_distribution env subs).trace.getD i (initJob SubResult 0)).successful
        ≤ ((process_subscriber_distribution env subs).trace.getD j (initJob SubResult 0)).successful ∧
      ((process_subscriber_distribution env subs).trace.getD i (initJob SubResult 0)).failed
        ≤ ((process_subscriber_distribution env subs).trace.getD j (initJob SubResult 0)).failed := by
  rcases hpre : sub_preloop env with msg | hu
  · have hz : ∀ k, ((process_subscriber_distribution env subs).trace.getD k
        (initJob SubResult 0)).processed = 0 ∧
        ((process_subscriber_distribution env subs).trace.getD k
          (initJob SubResult 0)).successful = 0 ∧
        ((process_subscriber_distribution env subs).trace.getD k
          (initJob SubResult 0)).failed = 0 := by
      intro k
      rw [process_subscriber_distribution_err_eq env subs msg hpre]
      rcases k with _ | _ | k <;> simp [initJob]
    intro i j _ _
    rw [(hz i).1, (hz j).1, (hz i).2.1, (hz j).2.1, (hz i).2.2, (hz j).2.2]
    exact ⟨Nat.le_refl _, Nat.le_refl _, Nat.le_refl _⟩
  · cases hu
    have hstepR : ∀ (i : Nat) (u : Subscriber) (j : Job SubResult),
        j.processed ≤ (process_subscriber_distribution_step env i u j).1.processed ∧
        j.successful ≤ (process_subscriber_distribution_step env i u j).1.successful ∧
        j.failed ≤ (process_subscriber_distribution_step env i u j).1.failed := by
      intro i u j
      obtain ⟨s1, s2, s3, s4, s5, s6, s7, s8⟩ :=
        process_subscriber_distribution_step_spec env i u j
      refine ⟨?_, ?_, ?_⟩ <;> omega
    have hchainloop := runLoop_chain (process_subscriber_distribution_step env)
      (fun a b => a.processed ≤ b.processed ∧ a.successful ≤ b.successful ∧
        a.failed ≤ b.failed)
      (fun i u j => hstepR i u j)
      subs 0 (initJob SubResult subs.length)
    have hlast := runLoop_getLast (process_subscriber_distribution_step env) subs 0
      (initJob SubResult subs.length)
    have hchainfull := chain_concat
      (fun a b => a.processed ≤ b.processed ∧ a.successful ≤ b.successful ∧
        a.failed ≤ b.failed)
      (runLoop (process_subscriber_distribution_step env) 0 subs
        (initJob SubResult subs.length)).2.2
      (initJob SubResult subs.length)
      (process_subscriber_distribution env subs).job
      hchainloop
      (by
        intro c hc
        rw [hlast] at hc
        have hcv := Option.some.inj hc
        rw [← hcv, process_subscriber_distribution_job_eq env subs hpre]
        exact ⟨Nat.le_refl _, Nat.le_refl _, Nat.le_refl _⟩)
    have hadj : ∀ i, i + 1 < (process_subscriber_distribution env subs).trace.length →
        ((process_subscriber_distribution env subs).trace.getD i
            (initJob SubResult 0)).processed
          ≤ ((process_subscriber_distribution env subs).trace.getD (i + 1)
              (initJob SubResult 0)).processed ∧
        ((process_subscriber_distribution env subs).trace.getD i
            (initJob SubResult 0)).successful
          ≤ ((process_subscriber_distribution env subs).trace.getD (i + 1)
              (initJob SubResult 0)).successful ∧
        ((process_subscriber_distribution env subs).trace.getD i
            (initJob SubResult 0)).failed
          ≤ ((process_subscriber_distribution env subs).trace.getD (i + 1)
              (initJob SubResult 0)).failed := by
      rw [process_subscriber_distribution_trace_ok_eq env subs hpre]
      exact chain_getD _ (initJob SubResult 0) _ _ hchainfull
    intro i j hij hj
    refine ⟨?_, ?_, ?_⟩
    · exact getD_mono_of_adjacent _ (fun s => s.processed) _
        (fun k hk => (hadj k hk).1) i j hij hj
    · exact getD_mono_of_adjacent _ (fun s => s.successful) _
        (fun k hk => (hadj k hk).2.1) i j hij hj
    · exact getD_mono_of_adjacent _ (fun s => s.failed) _
        (fun k hk => (hadj k hk).2.2) i j hij hj

theorem process_subscriber_distribution_step_chain (env : SubEnv) (subs : List Subscriber) :
    List.Chain' (fun a b => b.processed = a.processed + 1)
      (process_subscriber_distribution env subs).trace.dropLast := by
  rcases hpre : sub_preloop env with msg | hu
  · rw [process_subscriber_distribution_err_eq env subs msg hpre]
    simp
  · cases hu
    have : (process_subscriber_distribution env subs).trace.dropLast
        = initJob SubResult subs.length
            :: (runLoop (process_subscriber_distribution_step env) 0 subs
                  (initJob SubResult subs.length)).2.2 := by
      rw [process_subscriber_distribution_trace_ok_eq env subs hpre, List.dropLast_concat]
    rw [this]
    exact runLoop_chain (process_subscriber_distribution_step env)
      (fun a b => b.processed = a.processed + 1)
      (fun i u j => (process_subscriber_distribution_step_spec env i u j).1)
      subs 0 (initJob SubResult subs.length)

theorem process_subscriber_distribution_status (env : SubEnv) (subs : List Subscriber) :
    (∀ s ∈ (process_subscriber_distribution env subs).trace.dropLast,
      s.status = JobStatus.running) ∧
    (process_subscriber_distribution env subs).trace.getLast?
      = some (process_subscriber_distribution env subs).job ∧
    ((process_subscriber_distribution env subs).job.status = JobStatus.completed ∨
      (process_subscriber_distribution env subs).job.status = JobStatus.failed) ∧
    (∀ u, sub_preloop env = Except.ok u →
      (process_subscriber_distribution env subs).job.status = JobStatus.completed ∧
      (process_subscriber_distribution env subs).job.completedAt = true ∧
      (process_subscriber_distribution env subs).trace.length = subs.length + 2) ∧
    (∀ msg, sub_preloop env = Except.error msg →
      (process_subscriber_distribution env subs).job.status = JobStatus.failed ∧
      (process_subscriber_distribution env subs).trace.length = 2 ∧
      (process_subscriber_distribution env subs).job.processed = 0) := by
  rcases hpre : sub_preloop env with msg | hu
  · rw [process_subscriber_distribution_err_eq env subs msg hpre]
    refine ⟨?_, ?_, ?_, ?_, ?_⟩
    · intro s hs
      simp at hs
      rw [hs]; rfl
    · simp
    · right; rfl
    · intro u hu; simp at hu
    · intro m hm; simp [initJob]
  · cases hu
    have hdrop : (process_subscriber_distribution env subs).trace.dropLast
        = initJob SubResult subs.length
            :: (runLoop (process_subscriber_distribution_step env) 0 subs
                  (initJob SubResult subs.length)).2.2 := by
      rw [process_subscriber_distribution_trace_ok_eq env subs hpre, List.dropLast_concat]
    have hloop := runLoop_inv (process_subscriber_distribution_step env)
      (fun j => j.status = JobStatus.running)
      (fun i u j hj => by
        show (process_subscriber_distribution_step env i u j).1.status = JobStatus.running
        rw [(process_subscriber_distribution_step_spec env i u j).2.2.2.2.1]; exact hj)
      subs 0 (initJob SubResult subs.length) rfl
    refine ⟨?_, ?_, ?_, ?_, ?_⟩
    · intro s hs
      rw [hdrop] at hs
      rcases List.mem_cons.mp hs with h | h
      · rw [h]; rfl
      · exact hloop.2 s h
    · rw [process_subscriber_distribution_trace_ok_eq env subs hpre]
      exact List.getLast?_concat _
    · left
      rw [process_subscriber_distribution_job_eq env subs hpre]
    · intro u _
      refine ⟨?_, ?_, ?_⟩
      · rw [process_subscriber_distribution_job_eq env subs hpre]
      · rw [process_subscriber_distribution_job_eq env subs hpre]
      · rw [process_subscriber_distribution_trace_ok_eq env subs hpre]
        simp [runLoop_trace_length]
    · intro m hm; simp at hm

theorem process_subscriber_distribution_final (env : SubEnv) (subs : List Subscriber)
    (h : sub_preloop env = Except.ok ()) :
    (process_subscriber_distribution env subs).job.processed = subs.length ∧
    (process_subscriber_distribution env subs).job.total = subs.length ∧
    (process_subscriber_distribution env subs).job.results
      = (subs.enumFrom 0).map (fun p => subscriber_result env p.1 p.2) := by
  have hproc := runLoop_processed (process_subscriber_distribution_step env)
    (fun i u j => (process_subscriber_distribution_step_spec env i u j).1)
    subs 0 (initJob SubResult subs.length)
  have htot := runLoop_inv (process_subscriber_distribution_step env)
    (fun j => j.total = subs.length)
    (fun i u j hj => by
      show (process_subscriber_distribution_step env i u j).1.total = subs.length
      rw [(process_subscriber_distribution_step_spec env i u j).2.2.2.2.2.1]; exact hj)
    subs 0 (initJob SubResult subs.length) rfl
  have hres := runLoop_results (process_subscriber_distribution_step env)
    (subscriber_result env)
    (fun i u j => (process_subscriber_distribution_step_spec env i u j).2.1)
    subs 0 (initJob SubResult subs.length)
  rw [process_subscriber_distribution_job_eq env subs h]
  refine ⟨?_, ?_, ?_⟩
  · simpa [initJob] using hproc
  · simpa using htot.1
  · simpa [initJob] using hres

theorem process_subscriber_distribution_results_get (env : SubEnv) (subs : List Subscriber)
    (k : Nat) (h : sub_preloop env = Except.ok ()) :
    (process_subscriber_distribution env subs).job.results[k]?
      = subs[k]?.map (fun u => subscriber_result env k u) := by
  rw [(process_subscriber_distribution_final env subs h).2.2]
  rw [List.getElem?_map, enumFrom_getElem_eq]
  cases subs[k]? <;> simp

theorem process_subscriber_distribution_awaited_bounds (env : SubEnv)
    (subs : List Subscriber) :
    ∀ p ∈ (process_subscriber_distribution env subs).awaited,
      1 ≤ p.1 ∧ 240 ≤ p.2 ∧ p.2 ≤ 480 := by
  rcases hpre : sub_preloop env with msg | hu
  · rw [process_subscriber_distribution_err_eq env subs msg hpre]
    intro p hp
    simp at hp
  · cases hu
    have : (process_subscriber_distribution env subs).awaited
        = (runLoop (process_subscriber_distribution_step env) 0 subs
            (initJob SubResult subs.length)).2.1 := by
      rw [process_subscriber_distribution_ok_eq env subs hpre]
    rw [this]
    exact runLoop_awaited_mem (process_subscriber_distribution_step env) _
      (fun i u j => process_subscriber_distribution_step_delays env i u j)
      subs 0 (initJob SubResult subs.length)

theorem process_subscriber_distribution_awaited_count (env : SubEnv)
    (subs : List Subscriber) (h : sub_preloop env = Except.ok ())
    (hok : ∀ k, env.composite k = Except.ok ()) :
    (process_subscriber_distribution env subs).awaited.length = subs.length - 1 := by
  have : (process_subscriber_distribution env subs).awaited
      = (runLoop (process_subscriber_distribution_step env) 0 subs
          (initJob SubResult subs.length)).2.1 := by
    rw [process_subscriber_distribution_ok_eq env subs h]
  rw [this]
  exact runLoop_awaited_count_from_zero (process_subscriber_distribution_step env)
    (fun u j => process_subscriber_distribution_step_delay_zero env u j)
    (fun i u j hi => process_subscriber_distribution_step_delay_one env i u j (hok i) hi)
    subs (initJob SubResult subs.length)

/-! # Claim theorems -/

/-- C1: for both distribution orchestrators, at every observation point the
job record satisfies processed = successful + failed = number of results;
the three counters are monotonically non-decreasing along the run; processed
increases by exactly one per recipient iteration; and on normal completion
the final processed equals the total recipient count. -/
theorem claim_counters_invariant (env : DistEnv) (users : List User)
    (senv : SubEnv) (subs : List Subscriber) :
    (∀ s ∈ (process_distribution env users).trace,
      s.processed = s.successful + s.failed ∧ s.processed = s.results.length) ∧
    (∀ i j, i ≤ j → j < (process_distribution env users).trace.length →
      ((process_distribution env users).trace.getD i (initJob RecipientResult 0)).processed
        ≤ ((process_distribution env users).trace.getD j (initJob RecipientResult 0)).processed ∧
      ((process_distribution env users).trace.getD i (initJob RecipientResult 0)).successful
        ≤ ((process_distribution env users).trace.getD j (initJob RecipientResult 0)).successful ∧
      ((process_distribution env users).trace.getD i (initJob RecipientResult 0)).failed
        ≤ ((process_distribution env users).trace.getD j (initJob RecipientResult 0)).failed) ∧
    List.Chain' (fun a b => b.processed = a.processed + 1)
      (process_distribution env users).trace.dropLast ∧
    (process_distribution env users).job.processed = users.length ∧
    (process_distribution env users).job.processed
      = (process_distribution env users).job.total ∧
    (∀ s ∈ (process_subscriber_distribution senv subs).trace,
      s.processed = s.successful + s.failed ∧ s.processed = s.results.length) ∧
    (∀ i j, i ≤ j → j < (process_subscriber_distribution senv subs).trace.length →
      ((process_subscriber_distribution senv subs).trace.getD i (initJob SubResult 0)).processed
        ≤ ((process_subscriber_distribution senv subs).trace.getD j (initJob SubResult 0)).processed ∧
      ((process_subscriber_distribution senv subs).trace.getD i (initJob SubResult 0)).successful
        ≤ ((process_subscriber_distribution senv subs).trace.getD j (initJob SubResult 0)).successful ∧
      ((process_subscriber_distribution senv subs).trace.getD i (initJob SubResult 0)).failed
        ≤ ((process_subscriber_distribution senv subs).trace.getD j (initJob SubResult 0)).failed) ∧
    List.Chain' (fun a b => b.processed = a.processed + 1)
      (process_subscriber_distribution senv subs).trace.dropLast ∧
    ((process_subscriber_distribution senv subs).job.status = JobStatus.completed →
      (process_subscriber_distribution senv subs).job.processed = subs.length ∧
      (process_subscriber_distribution senv subs).job.processed
        = (process_subscriber_distribution senv subs).job.total) := by
  refine ⟨?_, process_distribution_trace_mono env users,
    process_distribution_step_chain env users, (process_distribution_final env users).1,
    ?_, ?_, process_subscriber_distribution_trace_mono senv subs,
    process_subscriber_distribution_step_chain senv subs, ?_⟩
  · intro s hs
    exact ⟨(process_distribution_trace_inv env users s hs).1,
      (process_distribution_trace_inv env users s hs).2.1⟩
  · rw [(process_distribution_final env users).1, (process_distribution_final env users).2.1]
  · intro s hs
    exact ⟨(process_subscriber_distribution_trace_inv senv subs s hs).1,
      (process_subscriber_distribution_trace_inv senv subs s hs).2.1⟩
  · intro hc
    rcases hpre : sub_preloop senv with msg | u
    · have hf := (process_subscriber_distribution_err_facts senv subs msg hpre).1
      rw [hf] at hc
      cases hc
    · cases u
      have hfin := process_subscriber_distribution_final senv subs hpre
      exact ⟨hfin.1, by rw [hfin.1, hfin.2.1]⟩

/-- Witness for C1 at a concrete two-recipient run of each route: the final
processed count equals 2 and the counters are non-decreasing from the first
to the last observation point. -/
theorem claim_counters_invariant_witness :
    (process_subscriber_distribution subEnvAllOk sampleSubs).job.processed = 2 ∧
    ((process_distribution envAllOk sampleUsers).trace.getD 0
        (initJob RecipientResult 0)).processed
      ≤ ((process_distribution envAllOk sampleUsers).trace.getD 3
          (initJob RecipientResult 0)).processed := by
  have h := claim_counters_invariant envAllOk sampleUsers subEnvAllOk sampleSubs
  constructor
  · have hc := h.2.2.2.2.2.2.2.2 (by decide)
    simpa using hc.1
  · exact (h.2.1 0 3 (by decide) (by decide)).1

/-- C2 counterexample: in a two-recipient users-route run where the
compositing step raises for the recipient at index 1, the inter-send delay is
awaited zero times, not N - 1 = 1 times — a compositing exception jumps to
the except branch before the sleep, skipping the delay of that index. -/
theorem claim_delay_count_counterexample :
    sampleUsers.length = 2 ∧
    (process_distribution envCompositeFailsAt1 sampleUsers).awaited = [] ∧
    (process_distribution envCompositeFailsAt1 sampleUsers).awaited.length
      ≠ sampleUsers.length - 1 := by
  refine ⟨rfl, rfl, by decide⟩

/-- C2 amended: every awaited delay belongs to a recipient index of at least 1
(never recipient 0) and its duration lies within the configured bounds (30 to
300 seconds on the users route, 240 to 480 seconds on the subscribers route);
the delay is awaited exactly N - 1 times provided every pre-send compositing
step succeeds (and, on the subscribers route, the pre-loop content generation
succeeds) — a compositing failure at a positive index skips the delay of
that index. -/
theorem claim_delay_bounds_and_count (env : DistEnv) (users : List User)
    (senv : SubEnv) (subs : List Subscriber) :
    (∀ p ∈ (process_distribution env users).awaited,
      1 ≤ p.1 ∧ 30 ≤ p.2 ∧ p.2 ≤ 300) ∧
    ((∀ k, env.composite k = Except.ok ()) →
      (process_distribution env users).awaited.length = users.length - 1) ∧
    (∀ p ∈ (process_subscriber_distribution senv subs).awaited,
      1 ≤ p.1 ∧ 240 ≤ p.2 ∧ p.2 ≤ 480) ∧
    (sub_preloop senv = Except.ok () → (∀ k, senv.composite k = Except.ok ()) →
      (process_subscriber_distribution senv subs).awaited.length = subs.length - 1) :=
  ⟨process_distribution_awaited_bounds env users,
   fun hok => process_distribution_awaited_count env users hok,
   process_subscriber_distribution_awaited_bounds senv subs,
   fun h hok => process_subscriber_distribution_awaited_count senv subs h hok⟩

/-- Witness for the amended C2 at concrete all-success two-recipient runs:
exactly one delay is awaited on each route, at index 1, within bounds. -/
theorem claim_delay_bounds_and_count_witness :
    (process_distribution envAllOk sampleUsers).awaited.length = 1 ∧
    (process_subscriber_distribution subEnvAllOk sampleSubs).awaited.length = 1 ∧
    (∀ p ∈ (process_distribution envAllOk sampleUsers).awaited,
      1 ≤ p.1 ∧ 30 ≤ p.2 ∧ p.2 ≤ 300) := by
  have h := claim_delay_bounds_and_count envAllOk sampleUsers subEnvAllOk sampleSubs
  refine ⟨?_, ?_, h.1⟩
  · rw [h.2.1 (fun k => rfl)]; rfl
  · rw [h.2.2.2 rfl (fun k => rfl)]; rfl

/-- C3: a per-recipient failure (compositing or delivery) never aborts the
loop: the job still processes every recipient and completes, the failing
recipient is recorded in order as a failure result carrying the error text,
and the failed counter counts exactly the failure records. Stated for both
orchestrators (the subscribers route under the hypothesis that its pre-loop
content generation succeeded, since otherwise the loop is not reached). -/
theorem claim_partial_failure_tolerance (env : DistEnv) (users : List User)
    (senv : SubEnv) (subs : List Subscriber) :
    ((process_distribution env users).job.processed = users.length ∧
     (process_distribution env users).job.status = JobStatus.completed) ∧
    (∀ k u e, users[k]? = some u →
      (env.composite k = Except.error e ∨
        (env.composite k = Except.ok () ∧ env.send k = Except.error e)) →
      (process_distribution env users).job.results[k]?
        = some ⟨u.id, u.phone, false, e⟩) ∧
    ((process_distribution env users).job.failed
      = ((process_distribution env users).job.results.filter
          (fun r => ! r.success)).length) ∧
    (sub_preloop senv = Except.ok () →
      ((process_subscriber_distribution senv subs).job.processed = subs.length ∧
       (process_subscriber_distribution senv subs).job.status = JobStatus.completed) ∧
      (∀ k u e, subs[k]? = some u →
        (senv.composite k = Except.error e ∨
          (senv.composite k = Except.ok () ∧ senv.send k = Except.error e)) →
        (process_subscriber_distribution senv subs).job.results[k]?
          = some ⟨u.id, u.name, u.phone, false, e⟩) ∧
      ((process_subscriber_distribution senv subs).job.failed
        = ((process_subscriber_distribution senv subs).job.results.filter
            (fun r => ! r.success)).length)) := by
  have hjobmem : (process_distribution env users).job
      ∈ (process_distribution env users).trace := by
    rw [process_distribution_trace_eq]
    simp
  refine ⟨⟨(process_distribution_final env users).1,
    (process_distribution_status env users).2.2.1⟩, ?_, ?_, ?_⟩
  · intro k u e hk houtcome
    rw [process_distribution_results_get env users k, hk]
    have : distribution_result env k u = ⟨u.id, u.phone, false, e⟩ := by
      unfold distribution_result
      rcases houtcome with h | ⟨h1, h2⟩
      · rw [h]
      · rw [h1, h2]
    simp [this]
  · exact (process_distribution_trace_inv env users _ hjobmem).2.2.2.2
  · intro hpre
    have hjobmem2 : (process_subscriber_distribution senv subs).job
        ∈ (process_subscriber_distribution senv subs).trace := by
      rw [process_subscriber_distribution_trace_ok_eq senv subs hpre]
      simp
    refine ⟨⟨(process_subscriber_distribution_final senv subs hpre).1, ?_⟩, ?_, ?_⟩
    · rw [process_subscriber_distribution_job_eq senv subs hpre]
    · intro k u e hk houtcome
      rw [process_subscriber_distribution_results_get senv subs k hpre, hk]
      have : subscriber_result senv k u = ⟨u.id, u.name, u.phone, false, e⟩ := by
        unfold subscriber_result
        rcases houtcome with h | ⟨h1, h2⟩
        · rw [h]
        · rw [h1, h2]
      simp [this]
    · exact (process_subscriber_distribution_trace_inv senv subs _ hjobmem2).2.2.2.2

/-- Witness for C3 at a concrete run: with the send call failing for recipient
0 of 2, both recipients are still processed, the job completes, and recipient
0 carries the failure record with the error text. -/
theorem claim_partial_failure_tolerance_witness :
    (process_distribution envSendFailsAt0 sampleUsers).job.processed = 2 ∧
    (process_distribution envSendFailsAt0 sampleUsers).job.status
      = JobStatus.completed ∧
    (process_distribution envSendFailsAt0 sampleUsers).job.results[0]?
      = some ⟨"u0", "5550001", false, "Connection timed out"⟩ := by
  have h := claim_partial_failure_tolerance envSendFailsAt0 sampleUsers
    subEnvAllOk sampleSubs
  refine ⟨h.1.1, h.1.2, ?_⟩
  exact h.2.1 0 ⟨"u0", "5550001"⟩ "Connection timed out" rfl (Or.inr ⟨rfl, rfl⟩)

/-- C4: for a subscriber distribution job over a non-empty recipient list,
a failure of the pre-loop content generation phase — a structured-output
exception, an empty image prompt, or an image-rendering exception — leaves
the job failed with the error message recorded, zero recipients processed
(all counters zero, empty results), no delay awaited, and the loop never
entered (the trace holds only the initial record and the failed record).
The users-route endpoint generates content before the job record even
exists (src/routes/posts.py lines 101-119), so for that route a generation
failure never reaches a job record and the claim is vacuous. -/
theorem claim_preloop_failure_marks_job_failed (env : SubEnv)
    (subs : List Subscriber) (hne : subs ≠ []) :
    (∀ e, env.structuredOutput = Except.error e →
      (process_subscriber_distribution env subs).job.status = JobStatus.failed ∧
      (process_subscriber_distribution env subs).job.error
        = some ("Image generation failed: " ++ e) ∧
      (process_subscriber_distribution env subs).job.processed = 0 ∧
      (process_subscriber_distribution env subs).job.successful = 0 ∧
      (process_subscriber_distribution env subs).job.failed = 0 ∧
      (process_subscriber_distribution env subs).job.results = [] ∧
      (process_subscriber_distribution env subs).awaited = [] ∧
      (process_subscriber_distribution env subs).trace.length = 2) ∧
    (∀ p c, env.structuredOutput = Except.ok (p, c) → p = "" →
      (process_subscriber_distribution env subs).job.status = JobStatus.failed ∧
      (process_subscriber_distribution env subs).job.error
        = some "Failed to generate image prompt" ∧
      (process_subscriber_distribution env subs).job.processed = 0 ∧
      (process_subscriber_distribution env subs).job.results = [] ∧
      (process_subscriber_distribution env subs).awaited = [] ∧
      (process_subscriber_distribution env subs).trace.length = 2) ∧
    (∀ p c e, env.structuredOutput = Except.ok (p, c) → p ≠ "" →
      env.imageGen = Except.error e →
      (process_subscriber_distribution env subs).job.status = JobStatus.failed ∧
      (process_subscriber_distribution env subs).job.error
        = some ("Image generation failed: " ++ e) ∧
      (process_subscriber_distribution env subs).job.processed = 0 ∧
      (process_subscriber_distribution env subs).job.results = [] ∧
      (process_subscriber_distribution env subs).awaited = [] ∧
      (process_subscriber_distribution env subs).trace.length = 2) := by
  have hne2 : subs ≠ [] := hne
  clear hne2
  refine ⟨?_, ?_, ?_⟩
  · intro e he
    have hmsg := (sub_preloop_cases env).1 e he
    have hf := process_subscriber_distribution_err_facts env subs _ hmsg
    exact ⟨hf.1, hf.2.1, hf.2.2.1, hf.2.2.2.1, hf.2.2.2.2.1, hf.2.2.2.2.2.1,
      hf.2.2.2.2.2.2.2.1, hf.2.2.2.2.2.2.2.2.1⟩
  · intro p c hpc hp
    have hmsg := (sub_preloop_cases env).2.1 p c hpc hp
    have hf := process_subscriber_distribution_err_facts env subs _ hmsg
    exact ⟨hf.1, hf.2.1, hf.2.2.1, hf.2.2.2.2.2.1,
      hf.2.2.2.2.2.2.2.1, hf.2.2.2.2.2.2.2.2.1⟩
  · intro p c e hpc hp hig
    have hmsg := (sub_preloop_cases env).2.2.1 p c e hpc hp hig
    have hf := process_subscriber_distribution_err_facts env subs _ hmsg
    exact ⟨hf.1, hf.2.1, hf.2.2.1, hf.2.2.2.2.2.1,
      hf.2.2.2.2.2.2.2.1, hf.2.2.2.2.2.2.2.2.1⟩

/-- Witness for C4: a concrete two-subscriber run whose structured-output
call raises ends failed with the message recorded and nothing processed. -/
theorem claim_preloop_failure_marks_job_failed_witness :
    (process_subscriber_distribution subEnvGenFails sampleSubs).job.status
      = JobStatus.failed ∧
    (process_subscriber_distribution subEnvGenFails sampleSubs).job.error
      = some "Image generation failed: 503 service unavailable" ∧
    (process_subscriber_distribution subEnvGenFails sampleSubs).job.processed = 0 := by
  have h := claim_preloop_failure_marks_job_failed subEnvGenFails sampleSubs
    (by decide)
  have hc := h.1 "503 service unavailable" rfl
  exact ⟨hc.1, hc.2.1, hc.2.2.1⟩

/-- C5: the status of a distribution job record is running at every
observation point before the terminal one; the terminal record is the final
job; on the users route the terminal status is always completed, reached only
after all recipients are processed; on the subscribers route the terminal
status is completed after the full loop when the pre-loop generation
succeeds, and failed (with no iteration run) exactly when the pre-loop
generation fails; no other status value ever occurs, so each transition
happens at most once. -/
theorem claim_status_transitions (env : DistEnv) (users : List User)
    (senv : SubEnv) (subs : List Subscriber) :
    ((∀ s ∈ (process_distribution env users).trace.dropLast,
        s.status = JobStatus.running) ∧
      (process_distribution env users).trace.getLast?
        = some (process_distribution env users).job ∧
      (process_distribution env users).job.status = JobStatus.completed ∧
      (process_distribution env users).trace.length = users.length + 2) ∧
    ((∀ s ∈ (process_subscriber_distribution senv subs).trace.dropLast,
        s.status = JobStatus.running) ∧
      (process_subscriber_distribution senv subs).trace.getLast?
        = some (process_subscriber_distribution senv subs).job ∧
      ((process_subscriber_distribution senv subs).job.status = JobStatus.completed ∨
        (process_subscriber_distribution senv subs).job.status = JobStatus.failed) ∧
      (∀ u, sub_preloop senv = Except.ok u →
        (process_subscriber_distribution senv subs).job.status = JobStatus.completed ∧
        (process_subscriber_distribution senv subs).trace.length = subs.length + 2) ∧
      (∀ msg, sub_preloop senv = Except.error msg →
        (process_subscriber_distribution senv subs).job.status = JobStatus.failed ∧
        (process_subscriber_distribution senv subs).trace.length = 2 ∧
        (process_subscriber_distribution senv subs).job.processed = 0)) := by
  have hp := process_distribution_status env users
  have hs := process_subscriber_distribution_status senv subs
  exact ⟨⟨hp.1, hp.2.1, hp.2.2.1, hp.2.2.2.2⟩,
    ⟨hs.1, hs.2.1, hs.2.2.1,
      fun u hu => ⟨(hs.2.2.2.1 u hu).1, (hs.2.2.2.1 u hu).2.2⟩,
      hs.2.2.2.2⟩⟩

/-- Witness for C5: concrete runs of both routes; the all-success subscriber
run ends completed with a 4-point trace, the generation-failure run ends
failed with a 2-point trace. -/
theorem claim_status_transitions_witness :
    (process_distribution envAllOk sampleUsers).job.status = JobStatus.completed ∧
    (process_subscriber_distribution subEnvAllOk sampleSubs).trace.length = 4 ∧
    (process_subscriber_distribution subEnvGenFails sampleSubs).job.status
      = JobStatus.failed := by
  have h1 := claim_status_transitions envAllOk sampleUsers subEnvAllOk sampleSubs
  have h2 := claim_status_transitions envAllOk sampleUsers subEnvGenFails sampleSubs
  refine ⟨h1.1.2.2.1, ?_, ?_⟩
  · rw [(h1.2.2.2.2.1 () rfl).2]; rfl
  · exact (h2.2.2.2.2.2 "Image generation failed: 503 service unavailable" rfl).1

/-- C6: the delivery client issues exactly one outbound call, to the fixed
webhook URL, with payload fields phone, message (the base64 image) and
caption, under a 60-second timeout; the transport outcome is returned
unchanged, so a transport failure or timeout propagates as the delivery
error and no internal retry ever happens (the request list has length one
regardless of outcome). -/
theorem claim_send_to_whatsapp_contract
    (transport : WebhookRequest → Except String String)
    (img cap phone : String) :
    (send_to_whatsapp transport img cap phone).1
      = [{ url := SEND_MEDIA_URL, phone := phone, message := img,
           caption := cap, timeoutSeconds := 60 }] ∧
    (send_to_whatsapp transport img cap phone).1.length = 1 ∧
    (send_to_whatsapp transport img cap phone).2
      = transport { url := SEND_MEDIA_URL, phone := phone, message := img,
                    caption := cap, timeoutSeconds := 60 } ∧
    (∀ e, transport { url := SEND_MEDIA_URL, phone := phone, message := img,
                      caption := cap, timeoutSeconds := 60 } = Except.error e →
      (send_to_whatsapp transport img cap phone).2 = Except.error e) := by
  refine ⟨rfl, rfl, rfl, ?_⟩
  intro e he
  exact he

/-- Witness for C6: with a transport that times out, the single issued
request targets the fixed URL and the error propagates unchanged. -/
theorem claim_send_to_whatsapp_contract_witness :
    (send_to_whatsapp transportTimesOut "imgdata" "hello" "5551234").1.length = 1 ∧
    (send_to_whatsapp transportTimesOut "imgdata" "hello" "5551234").2
      = Except.error "Connection timed out" := by
  have h := claim_send_to_whatsapp_contract transportTimesOut "imgdata" "hello" "5551234"
  exact ⟨h.2.1, h.2.2.2 "Connection timed out" rfl⟩

/-- C7 counterexample: the subscriber orchestrator run on an empty recipient
list with a failing structured-output collaborator ends with status failed,
not completed — its in-task content generation runs before the loop
regardless of the list, so an empty list does not guarantee completion. -/
theorem claim_empty_list_counterexample :
    (process_subscriber_distribution subEnvGenFails []).job.status
      = JobStatus.failed ∧
    ¬ (process_subscriber_distribution subEnvGenFails []).job.status
      = JobStatus.completed := by
  constructor <;> decide

/-- C7 amended: a users-route orchestrator run on an empty recipient list
always ends completed with all counters zero, empty results, no delay
awaited, and the completion timestamp recorded; a subscribers-route run on an
empty list does the same provided its pre-loop content generation succeeds,
while a generation failure ends it failed — still with zero counters and no
delay awaited. -/
theorem claim_empty_list_completion (env : DistEnv) (senv : SubEnv) :
    ((process_distribution env []).job.status = JobStatus.completed ∧
      (process_distribution env []).job.processed = 0 ∧
      (process_distribution env []).job.successful = 0 ∧
      (process_distribution env []).job.failed = 0 ∧
      (process_distribution env []).job.results = [] ∧
      (process_distribution env []).awaited = [] ∧
      (process_distribution env []).job.completedAt = true) ∧
    (sub_preloop senv = Except.ok () →
      (process_subscriber_distribution senv []).job.status = JobStatus.completed ∧
      (process_subscriber_distribution senv []).job.processed = 0 ∧
      (process_subscriber_distribution senv []).job.successful = 0 ∧
      (process_subscriber_distribution senv []).job.failed = 0 ∧
      (process_subscriber_distribution senv []).job.results = [] ∧
      (process_subscriber_distribution senv []).awaited = [] ∧
      (process_subscriber_distribution senv []).job.completedAt = true) ∧
    (∀ msg, sub_preloop senv = Except.error msg →
      (process_subscriber_distribution senv []).job.status = JobStatus.failed ∧
      (process_subscriber_distribution senv []).job.processed = 0 ∧
      (process_subscriber_distribution senv []).awaited = []) := by
  refine ⟨⟨rfl, rfl, rfl, rfl, rfl, rfl, rfl⟩, ?_, ?_⟩
  · intro h
    rw [process_subscriber_distribution_ok_eq senv [] h]
    exact ⟨rfl, rfl, rfl, rfl, rfl, rfl, rfl⟩
  · intro msg h
    have hf := process_subscriber_distribution_err_facts senv [] msg h
    exact ⟨hf.1, hf.2.2.1, hf.2.2.2.2.2.2.2.1⟩

/-- Witness for the amended C7: the all-success subscriber environment on an
empty list completes with nothing processed, and a failing one fails with
nothing processed. -/
theorem claim_empty_list_completion_witness :
    (process_subscriber_distribution subEnvAllOk []).job.status
      = JobStatus.completed ∧
    (process_subscriber_distribution subEnvAllOk []).job.processed = 0 ∧
    (process_subscriber_distribution subEnvGenFails []).job.processed = 0 := by
  have h1 := claim_empty_list_completion envAllOk subEnvAllOk
  have h2 := claim_empty_list_completion envAllOk subEnvGenFails
  exact ⟨(h1.2.1 rfl).1, (h1.2.1 rfl).2.1,
    (h2.2.2 "Image generation failed: 503 service unavailable" rfl).2.1⟩

/-- Round trip of the pixel serialization. -/
theorem png_decode_pixels_encode (ps : List Pixel) :
    png_decode_pixels (png_encode_pixels ps) = some ps := by
  induction ps with
  | nil => rfl
  | cons p ps ih => simp [png_encode_pixels, png_decode_pixels, ih]

/-- Round trip of the raster serialization. -/
theorem png_decode_encode (img : PILImage) : png_decode (png_encode img) = some img := by
  obtain ⟨m, w, h, ps⟩ := img
  cases m <;> simp [png_encode, png_decode, mode_tag, png_decode_pixels_encode]

/-- C8: image_to_base64 first flattens an RGBA image onto a white background
(leaving an already-opaque RGB image untouched), then losslessly encodes it;
decoding the encoded stream reproduces exactly the flattened image, which is
opaque (mode RGB) and has the same pixel dimensions as the input. -/
theorem claim_image_to_base64_roundtrip (img : PILImage) :
    png_decode (image_to_base64 img) = some (flatten_rgba img) ∧
    (flatten_rgba img).mode = PixMode.RGB ∧
    (flatten_rgba img).width = img.width ∧
    (flatten_rgba img).height = img.height ∧
    (flatten_rgba img).pixels
      = (if img.mode = PixMode.RGBA then img.pixels.map blend_over_white
         else img.pixels) := by
  refine ⟨png_decode_encode (flatten_rgba img), ?_, ?_, ?_, ?_⟩ <;>
  · unfold flatten_rgba
    rcases hm : img.mode <;> simp [hm]

/-- C9 counterexample: a collaborator reply that parses into a non-empty
prompt and an EMPTY caption is accepted — the pipeline returns it as a
success instead of failing, because neither generate_structured_output nor
its caller ever validates the caption field. -/
theorem claim_generation_empty_caption_counterexample :
    extract_prompt_caption replyEmptyCaption
      = Except.ok ("a festive scene", "") ∧
    (extract_prompt_caption replyEmptyCaption).isOk = true := by
  exact ⟨rfl, rfl⟩

/-- C9 amended: the structured-content generation step fails exactly when the
collaborator reply cannot be parsed as JSON (error "Failed to parse Gemini
response as JSON") or when the prompt field is missing or empty (error
"Failed to generate image prompt"); a missing or empty caption is never
rejected and is passed through as the empty string. -/
theorem claim_generation_failure_conditions (reply : GeminiReply) :
    (reply = GeminiReply.invalidJson →
      extract_prompt_caption reply
        = Except.error "Failed to parse Gemini response as JSON") ∧
    (∀ fields, reply = GeminiReply.jsonObject fields →
      (dict_get fields "prompt" "" = "" →
        extract_prompt_caption reply
          = Except.error "Failed to generate image prompt") ∧
      (dict_get fields "prompt" "" ≠ "" →
        extract_prompt_caption reply
          = Except.ok (dict_get fields "prompt" "", dict_get fields "caption" ""))) := by
  constructor
  · intro h; rw [h]; rfl
  · intro fields h
    subst h
    constructor
    · intro hp
      simp [extract_prompt_caption, generate_structured_output, hp]
    · intro hp
      simp [extract_prompt_caption, generate_structured_output, hp]

/-- Witness for the amended C9: a well-formed reply passes through, an
unparseable one and an empty-prompt one fail with the recorded messages. -/
theorem claim_generation_failure_conditions_witness :
    extract_prompt_caption replyOk
      = Except.ok ("a festive scene", "Happy holiday!") ∧
    extract_prompt_caption GeminiReply.invalidJson
      = Except.error "Failed to parse Gemini response as JSON" ∧
    extract_prompt_caption (GeminiReply.jsonObject [("prompt", "")])
      = Except.error "Failed to generate image prompt" := by
  refine ⟨?_, ?_, ?_⟩
  · exact ((claim_generation_failure_conditions replyOk).2 _ rfl).2 (by decide)
  · exact (claim_generation_failure_conditions GeminiReply.invalidJson).1 rfl
  · exact ((claim_generation_failure_conditions
      (GeminiReply.jsonObject [("prompt", "")])).2 _ rfl).1 (by decide)

/-- C10: when the holiday resolves, content generation and image rendering
succeed, but the delivery call raises, the generate-post endpoint does not
propagate the exception: it returns a normal response with success false
whose message is the fixed failure text followed by the delivery error text,
still carrying the resolved holiday and the generated caption. -/
theorem claim_generate_post_send_failure (holidayParam csvHoliday : Option String)
    (reply : GeminiReply) (imageGen : Except String Unit)
    (send : Except String String) (phone h prompt caption e : String)
    (hres : resolve_holiday holidayParam csvHoliday = some h)
    (hpc : extract_prompt_caption reply = Except.ok (prompt, caption))
    (hig : imageGen = Except.ok ())
    (hsend : send = Except.error e) :
    generate_post holidayParam csvHoliday reply imageGen send phone
      = Except.ok { success := false, holiday := h, caption := caption,
                    message := "Post generated but failed to send: " ++ e } := by
  unfold generate_post
  rw [hres, hpc, hig, hsend]

/-- Witness for C10 at concrete inputs: explicit holiday, a good reply, a
successful render, a failing send. -/
theorem claim_generate_post_send_failure_witness :
    generate_post (some "Diwali") none replyOk (Except.ok ())
        (Except.error "delivery refused") "5551234"
      = Except.ok { success := false, holiday := "Diwali",
                    caption := "Happy holiday!",
                    message := "Post generated but failed to send: delivery refused" } := by
  exact claim_generate_post_send_failure (some "Diwali") none replyOk
    (Except.ok ()) (Except.error "delivery refused") "5551234" "Diwali"
    "a festive scene" "Happy holiday!" "delivery refused" rfl rfl rfl rfl
